import Mathlib

/-!
Verification of the Moira alerting engine against its specification.

The Go sources embedded here are `intefaces.go` (the `Database`, `Logger`,
`Worker` and `Sender` interfaces), `api/dto/subscription.go` (the DTO `Bind`
validation) and the daemon's `main` function (flag handling, startup and the
graceful-shutdown sequence).  Components whose implementation files are not
part of the repository snapshot (the store-backed subscription query, the
notification scheduler's throttling, the due-notification fetch, the
trigger-definition cache expiry) are modelled from the specification's words;
each such definition carries a doc comment starting `Modelled from the spec:`.
Machine integers (Go `int64` timestamps) are modelled as `Int`; Go `error`
results as `Option String` (`none` = nil error).
-/

/-- Modelled from the spec: `schedule` is a weekly window plus timezone offset
(the `ScheduleData` definition file is not in the snapshot).  `days` flags the
days of week on which sending is allowed. -/
structure ScheduleData where
  days : List Bool
  startOffset : Int
  endOffset : Int
  tzOffset : Int
deriving DecidableEq

/-- Modelled from the spec: Subscription is
`(id, tags, contacts, schedule, throttling, sendings_enabled, plotting_enabled)`
(the `SubscriptionData` definition file is not in the snapshot; `Bind` in
`api/dto/subscription.go` reads the `Tags` and `Contacts` fields). -/
structure SubscriptionData where
  id : String
  tags : List String
  contacts : List String
  schedule : ScheduleData
  throttling : Bool
  sendingsEnabled : Bool
  plottingEnabled : Bool
deriving DecidableEq

/-- Modelled from the spec: Contact is `(id, type, value, user)` (the
`ContactData` definition file is not in the snapshot; the mail-sender test
constructs it with `ID`, `Type`, `Value`). -/
structure ContactData where
  id : String
  type : String
  value : String
  user : String
deriving DecidableEq

/-- Modelled from the spec: Trigger is `(id, name, desc, targets, warn_value,
error_value, ttl, ttl_state, schedule, tags, expression?, patterns)` (the
`TriggerData` definition file is not in the snapshot; the mail-sender test
constructs it with `ID`, `Name`, `Targets`, `WarnValue`, `ErrorValue`, `Tags`).
`warn_value`/`error_value` are Go `float64`; no claim computes with them. -/
structure TriggerData where
  id : String
  name : String
  desc : String
  targets : List String
  warnValue : Float
  errorValue : Float
  ttl : Int
  ttlState : String
  tags : List String
  patterns : List String

/-- Modelled from the spec: Event is
`(trigger_id, metric, old_state, state, timestamp, value?, message?)` (the
`EventData` definition file is not in the snapshot; the mail-sender test also
sets a `SubscriptionID`). -/
structure EventData where
  triggerID : String
  subscriptionID : String
  metric : String
  oldState : String
  state : String
  timestamp : Int
  value : Option Float
  message : Option String

/-- Modelled from the spec: the Go slice type `EventsData` (`[]EventData`),
named in `Sender.SendEvents` of `intefaces.go`. -/
abbrev EventsData : Type := List EventData

/-- A Go `error` result: `none` is a nil error, `some msg` an error value. -/
abbrev GoError : Type := Option String

/-- The `Logger` interface of `intefaces.go`: ten logging methods taking
variadic arguments (modelled as a list of rendered arguments, formatted
variants also take the format string) and returning nothing. -/
structure Logger where
  debug : List String → Unit
  debugf : String → List String → Unit
  info : List String → Unit
  infof : String → List String → Unit
  error : List String → Unit
  errorf : String → List String → Unit
  fatal : List String → Unit
  fatalf : String → List String → Unit
  warning : List String → Unit
  warningf : String → List String → Unit

/-- The sender configuration map of `intefaces.go`
(`senderSettings map[string]string`), as an association list. -/
abbrev SenderSettings : Type := List (String × String)

/-- The `Sender` interface of `intefaces.go`: exactly two operations,
`SendEvents(events, contact, trigger, throttled) error` and
`Init(senderSettings, logger) error`. -/
structure Sender where
  sendEvents : EventsData → ContactData → TriggerData → Bool → GoError
  init : SenderSettings → Logger → GoError

/-- Modelled from the spec: `GetTagsSubscriptions(trigger.tags)` "returns every
subscription whose tags are a subset of `trigger.tags`" (the store-backed
implementation behind `Database.GetTagsSubscriptions` of `intefaces.go` is not
in the snapshot).  The store's subscription table is abstracted as the list
`subscriptions`; a subscription is kept when each of its tags occurs among the
trigger's tags. -/
def GetTagsSubscriptions (subscriptions : List SubscriptionData)
    (tags : List String) : List SubscriptionData :=
  subscriptions.filter (fun s => s.tags.all (fun t => tags.contains t))

namespace dto

/-- The DTO type `Subscription` of `api/dto/subscription.go`
(`type Subscription moira.SubscriptionData`). -/
abbrev Subscription : Type := SubscriptionData

/-- `(*Subscription).Bind` of `api/dto/subscription.go`: reject a subscription
with no tags (`"subscription must have tags"`), then one with no contacts
(`"subscription must have contacts"`); otherwise accept.  The Go method only
reads through its receiver, so the model returns the (unchanged) subscription
alongside the error. -/
def Subscription.Bind (subscription : Subscription) :
    Subscription × GoError :=
  if subscription.tags.length = 0 then
    (subscription, some "subscription must have tags")
  else if subscription.contacts.length = 0 then
    (subscription, some "subscription must have contacts")
  else
    (subscription, none)

end dto

/-- Modelled from the spec: the throttle record kept per `(contact, trigger)`
pair, `(next_allowed_send, last_throttled_count)` (the scheduler implementation
behind `Database.GetTriggerThrottlingTimestamps` /
`SetTriggerThrottlingTimestamp` of `intefaces.go` is not in the snapshot).
Times are Unix seconds. -/
structure ThrottleRecord where
  nextAllowedSend : Nat
  lastThrottledCount : Nat
deriving DecidableEq

/-- Modelled from the spec: the throttling policy's delay for its `step`-th
application, "step 1 = 30 min, step 2 = 1 h, step 3+ = 3 h", in seconds. -/
def throttleDelay (step : Nat) : Nat :=
  if step ≤ 1 then 1800
  else if step = 2 then 3600
  else 10800

/-- Modelled from the spec: the Scheduler's send decision for one
`(contact, trigger)` pair.  "Read the throttle record.  Compute
`send_at = max(now, next_allowed_send)`.  If the contact has received ≥ K
events in the last window, extend `next_allowed_send` by the policy."
Returns the computed send time and the throttle record to persist. -/
def scheduleSendAt (now eventsCount k : Nat) (rec : ThrottleRecord) :
    Nat × ThrottleRecord :=
  let sendAt := max now rec.nextAllowedSend
  if k ≤ eventsCount then
    let step := rec.lastThrottledCount + 1
    (sendAt,
      { nextAllowedSend := rec.nextAllowedSend + throttleDelay step,
        lastThrottledCount := step })
  else
    (sendAt, rec)

/-- Modelled from the spec: the notifications fetcher's per-tick step over the
sorted set of scheduled notifications (the implementation behind
`Database.GetNotifications(to int64)` of `intefaces.go` is not in the
snapshot).  "Every tick (≤ 1 s), atomically move all notifications with
`send_at ≤ now` from the sorted set to a batch."  The sorted set is abstracted
as a list; the result is the batch of due notifications and the set that
remains. -/
structure ScheduledNotification where
  event : EventData
  trigger : TriggerData
  contact : ContactData
  sendAt : Int
  throttled : Bool
  needsAck : Bool

/-- Modelled from the spec: see `ScheduledNotification`.  `GetNotifications`
takes everything due at or before `now` out of the pending set in one step. -/
def GetNotifications (pending : List ScheduledNotification) (now : Int) :
    List ScheduledNotification × List ScheduledNotification :=
  (pending.filter (fun n => decide (n.sendAt ≤ now)),
   pending.filter (fun n => decide (now < n.sendAt)))

/-- Modelled from the spec: "a tagged registration list in config drives
instantiation at startup" and "Each sender is initialized once with a
configuration map and logger": registering the configured senders issues one
`Init` call (a configuration map paired with the logger) per configured
sender, in configuration order. -/
def registerSenders (configs : List SenderSettings) (lg : Logger) :
    List (SenderSettings × Logger) :=
  configs.map (fun c => (c, lg))

/-- The trigger-definition cache entry of the Checker: a value with its
insertion timestamp (Unix seconds).  The cache itself is the third-party
`go-cache` map created in `main` by `cache.New(time.Minute, time.Minute*60)`;
its lazy per-entry expiry is modelled from the spec: "a map + timestamp with
background eviction or lazy expiry on access". -/
structure CacheItem (α : Type) where
  value : α
  insertedAt : Nat

/-- The default per-entry time-to-live the Checker's cache is created with in
`main`: `time.Minute`, i.e. 60 seconds. -/
def checkerCacheTTL : Nat := 60

/-- The cleanup interval the Checker's cache is created with in `main`:
`time.Minute*60`, i.e. 3600 seconds. -/
def checkerCacheCleanupInterval : Nat := 3600

/-- Modelled from the spec: lazy expiry on access — an entry inserted at time
`insertedAt` with time-to-live `ttl` is expired for an access at `now` exactly
when `insertedAt + ttl ≤ now`. -/
def cacheItemExpired {α : Type} (ttl : Nat) (item : CacheItem α) (now : Nat) :
    Bool :=
  decide (item.insertedAt + ttl ≤ now)

/-- The daemon's command-line flags, from `main.go`:
`--config` (string, default `"moira.yml"`), `--version` (bool),
`--default-config` (bool).  `config = none` models a command line on which
`--config` was not given, so the flag keeps its default. -/
structure Flags where
  version : Bool
  defaultConfig : Bool
  config : Option String

/-- The configuration file path `main` uses: the `--config` value when given,
otherwise the flag's default `"moira.yml"`. -/
def configPath (f : Flags) : String :=
  f.config.getD "moira.yml"

/-- The outcome of each fallible external call `main` makes, in program order:
`none` is success, `some msg` the error `main` sees there. -/
structure MainEnv where
  readConfigError : Option String
  mainLogError : Option String
  apiLogError : Option String
  apiStartError : Option String
  filterLogError : Option String
  filterStartError : Option String
  notifierLogError : Option String
  registerSendersError : Option String
  selfStateStartError : Option String
  checkerLogError : Option String
  checkerStartError : Option String
  metricsInitError : Option String

/-- One observable step of `main`: prints, the config read, logger setup,
component starts, the signal wait, the stop calls of the shutdown sequence,
bot deregistration, and process exit with a code.  `logFatal` stands for a
`log.Fatalf` call (which logs and exits with code 1). -/
inductive MainAction where
  | printVersionInfo
  | printDefaultConfig
  | readConfig (path : String)
  | stderrWrite (msg : String)
  | configureLogFor (module : String)
  | logFatal (msg : String)
  | logError (msg : String)
  | apiStart
  | filterStart
  | registerSendersStep
  | selfStateStart
  | fetchEventsStart
  | fetchNotificationsStart
  | checkerStart
  | metricsInitStep
  | waitSignal
  | filterStop
  | selfStateStop
  | fetchEventsStop
  | fetchNotificationsStop
  | deregisterBots
  | checkerStop
  | apiStop
  | exitProcess (code : Nat)
deriving DecidableEq

/-- The trace of `main` from `main.go`, as a function of the parsed flags and
the outcomes of its external calls.  It follows the source line by line:
`--version` prints and exits 0; `--default-config` prints the default
configuration and exits 0; a failed `ReadConfig` writes
`"Can't read settings: …"` to stderr and exits 1; a failed main-logger setup
writes to stderr and exits 1; each later failure goes through `log.Fatalf`
(exit 1); on success `main` starts API, Filter, Notifier workers and Checker,
waits for SIGINT/SIGTERM, then stops the Filter, stops the self-state, event
and notification workers, deregisters bots, stops the Checker, stops the API
and returns (exit 0).  (The source's fatal message for the notifier logger
really says "Filter".) -/
def runMain (f : Flags) (env : MainEnv) : List MainAction :=
  if f.version then
    [MainAction.printVersionInfo, MainAction.exitProcess 0]
  else if f.defaultConfig then
    [MainAction.printDefaultConfig, MainAction.exitProcess 0]
  else
    MainAction.readConfig (configPath f) ::
    (match env.readConfigError with
     | some e =>
       [MainAction.stderrWrite ("Can't read settings: " ++ e ++ "\n"),
        MainAction.exitProcess 1]
     | none =>
       MainAction.configureLogFor "main" ::
       (match env.mainLogError with
        | some e =>
          [MainAction.stderrWrite
             ("Can't configure main logger: " ++ e ++ "\n"),
           MainAction.exitProcess 1]
        | none =>
          MainAction.configureLogFor "api" ::
          (match env.apiLogError with
           | some _ =>
             [MainAction.logFatal "Can't configure logger for API",
              MainAction.exitProcess 1]
           | none =>
             MainAction.apiStart ::
             (match env.apiStartError with
              | some _ =>
                [MainAction.logFatal "Can't start API",
                 MainAction.exitProcess 1]
              | none =>
                MainAction.configureLogFor "filter" ::
                (match env.filterLogError with
                 | some _ =>
                   [MainAction.logFatal "Can't configure logger for Filter",
                    MainAction.exitProcess 1]
                 | none =>
                   MainAction.filterStart ::
                   (match env.filterStartError with
                    | some _ =>
                      [MainAction.logFatal "Can't start Filter",
                       MainAction.exitProcess 1]
                    | none =>
                      MainAction.configureLogFor "notifier" ::
                      (match env.notifierLogError with
                       | some _ =>
                         [MainAction.logFatal
                            "Can't configure logger for Filter",
                          MainAction.exitProcess 1]
                       | none =>
                         MainAction.registerSendersStep ::
                         (match env.registerSendersError with
                          | some _ =>
                            [MainAction.logFatal "Can't configure senders",
                             MainAction.exitProcess 1]
                          | none =>
                            MainAction.selfStateStart ::
                            (match env.selfStateStartError with
                             | some _ =>
                               [MainAction.logFatal "SelfState failed",
                                MainAction.exitProcess 1]
                             | none =>
                               MainAction.fetchEventsStart ::
                               MainAction.fetchNotificationsStart ::
                               MainAction.configureLogFor "checker" ::
                               (match env.checkerLogError with
                                | some _ =>
                                  [MainAction.logFatal
                                     "Can't configure logger for Checker",
                                   MainAction.exitProcess 1]
                                | none =>
                                  MainAction.checkerStart ::
                                  (match env.checkerStartError with
                                   | some _ =>
                                     [MainAction.logFatal
                                        "Start Checker failed",
                                      MainAction.exitProcess 1]
                                   | none =>
                                     (match env.metricsInitError with
                                      | some e =>
                                        [MainAction.metricsInitStep,
                                         MainAction.logError e]
                                      | none =>
                                        [MainAction.metricsInitStep]) ++
                                     [MainAction.waitSignal,
                                      MainAction.filterStop,
                                      MainAction.selfStateStop,
                                      MainAction.fetchEventsStop,
                                      MainAction.fetchNotificationsStop,
                                      MainAction.deregisterBots,
                                      MainAction.checkerStop,
                                      MainAction.apiStop,
                                      MainAction.exitProcess 0])))))))))))

/-- Whether a `main` step starts one of the daemon's components (API, Filter,
Notifier workers and sender registration, Checker). -/
def isComponentStart : MainAction → Bool
  | MainAction.apiStart => true
  | MainAction.filterStart => true
  | MainAction.registerSendersStep => true
  | MainAction.selfStateStart => true
  | MainAction.fetchEventsStart => true
  | MainAction.fetchNotificationsStart => true
  | MainAction.checkerStart => true
  | _ => false

/-- A command line with no flags given: every flag keeps its default. -/
def defaultFlags : Flags := ⟨false, false, none⟩

/-- A run on which every external call of `main` succeeds. -/
def allSucceedEnv : MainEnv :=
  ⟨none, none, none, none, none, none, none, none, none, none, none, none⟩

/-- The trace of the daemon's ordinary life: started with no flags, every
external call succeeding, one SIGINT/SIGTERM received. -/
def mainSuccessTrace : List MainAction := runMain defaultFlags allSucceedEnv

/-- C1: `GetTagsSubscriptions` returns exactly the subscriptions whose tag set
is a subset of the trigger's tag set: a subscription is in the result iff it is
stored and every one of its tags occurs among the trigger's tags (so none with
a tag absent from the trigger's tags is returned). -/
theorem GetTagsSubscriptions_subset_characterization
    (subscriptions : List SubscriptionData) (tags : List String)
    (s : SubscriptionData) :
    s ∈ GetTagsSubscriptions subscriptions tags ↔
      s ∈ subscriptions ∧ ∀ t ∈ s.tags, t ∈ tags := by
  simp [GetTagsSubscriptions, List.mem_filter, List.all_eq_true,
    List.elem_iff]

/-- C10: `Bind` leaves the subscription unchanged, errors exactly when the tag
list or the contact list is empty, reports the tag error when the tag list is
empty (tags are checked first), and reports the contact error when only the
contact list is empty. -/
theorem Subscription_Bind_validation (s : dto.Subscription) :
    (dto.Subscription.Bind s).1 = s ∧
      ((dto.Subscription.Bind s).2 ≠ none ↔ s.tags = [] ∨ s.contacts = []) ∧
      (s.tags = [] →
        (dto.Subscription.Bind s).2 = some "subscription must have tags") ∧
      (s.tags ≠ [] → s.contacts = [] →
        (dto.Subscription.Bind s).2 = some "subscription must have contacts") := by
  refine ⟨?_, ?_, ?_, ?_⟩ <;>
    simp only [dto.Subscription.Bind, List.length_eq_zero] <;>
    rcases hT : s.tags with _ | ⟨t, ts⟩ <;>
    rcases hC : s.contacts with _ | ⟨c, cs⟩ <;>
    simp

/-- C2: the Scheduler computes the send time as
`send_at = max(now, next_allowed_send)` read from the pair's throttle record,
and when the contact has received at least `K` events in the current window the
record's `next_allowed_send` is extended by 30 minutes at step 1, by 1 hour at
step 2 and by 3 hours at every step from 3 on (the step being the updated
throttle count). -/
theorem scheduler_sendAt_and_throttle_policy
    (now eventsCount k : Nat) (rec : ThrottleRecord) :
    (scheduleSendAt now eventsCount k rec).1 = max now rec.nextAllowedSend ∧
    (k ≤ eventsCount →
      (scheduleSendAt now eventsCount k rec).2.lastThrottledCount
          = rec.lastThrottledCount + 1 ∧
      ((scheduleSendAt now eventsCount k rec).2.lastThrottledCount = 1 →
        (scheduleSendAt now eventsCount k rec).2.nextAllowedSend
          = rec.nextAllowedSend + 30 * 60) ∧
      ((scheduleSendAt now eventsCount k rec).2.lastThrottledCount = 2 →
        (scheduleSendAt now eventsCount k rec).2.nextAllowedSend
          = rec.nextAllowedSend + 60 * 60) ∧
      (3 ≤ (scheduleSendAt now eventsCount k rec).2.lastThrottledCount →
        (scheduleSendAt now eventsCount k rec).2.nextAllowedSend
          = rec.nextAllowedSend + 3 * 60 * 60)) := by
  unfold scheduleSendAt throttleDelay
  rcases rec with ⟨next, c⟩
  by_cases h : k ≤ eventsCount <;>
    rcases c with _ | _ | c <;>
    simp [h]

/-- C3: one tick of the notifications fetcher takes to the batch exactly the
scheduled notifications with `send_at ≤ now`, and what remains in the set is
exactly those with `now < send_at` (so nothing due is left behind and nothing
not yet due is taken). -/
theorem GetNotifications_due_partition
    (pending : List ScheduledNotification) (now : Int)
    (n : ScheduledNotification) :
    (n ∈ (GetNotifications pending now).1 ↔ n ∈ pending ∧ n.sendAt ≤ now) ∧
    (n ∈ (GetNotifications pending now).2 ↔ n ∈ pending ∧ now < n.sendAt) := by
  simp [GetNotifications, List.mem_filter]

/-- C4: a sender is nothing but the pair of its two operations — it is
determined by, and equivalent to, a `SendEvents` function of type
`events → contact → trigger snapshot → throttled flag → error` together with
an `Init` function of type `configuration map → logger → error` — and
registering the configured senders issues exactly one `Init`-call datum
(configuration map with the logger) per configured sender. -/
theorem sender_uniform_contract :
    (∀ s : Sender, s = ⟨s.sendEvents, s.init⟩) ∧
    Nonempty (Sender ≃
      ((EventsData → ContactData → TriggerData → Bool → GoError) ×
        (SenderSettings → Logger → GoError))) ∧
    (∀ (configs : List SenderSettings) (lg : Logger),
      (registerSenders configs lg).length = configs.length ∧
      ∀ p ∈ registerSenders configs lg, p.2 = lg) := by
  refine ⟨fun s => rfl,
    ⟨⟨fun s => (s.sendEvents, s.init), fun p => ⟨p.1, p.2⟩,
      fun s => rfl, fun p => rfl⟩⟩,
    fun configs lg => ⟨by simp [registerSenders], by simp [registerSenders]⟩⟩

/-- C5 counterexample: on the daemon's ordinary run it is NOT the case that
bot deregistration comes after the Filter, Notifier, Checker and API pools
have all been stopped — in `main`, `DeregisterBots` runs before
`checkerWorker.Stop()` and `apiServer.Stop()`. -/
theorem deregisterBots_not_after_all_pools_stopped :
    ¬ (mainSuccessTrace.indexOf MainAction.filterStop <
          mainSuccessTrace.indexOf MainAction.deregisterBots ∧
       mainSuccessTrace.indexOf MainAction.selfStateStop <
          mainSuccessTrace.indexOf MainAction.deregisterBots ∧
       mainSuccessTrace.indexOf MainAction.fetchEventsStop <
          mainSuccessTrace.indexOf MainAction.deregisterBots ∧
       mainSuccessTrace.indexOf MainAction.fetchNotificationsStop <
          mainSuccessTrace.indexOf MainAction.deregisterBots ∧
       mainSuccessTrace.indexOf MainAction.checkerStop <
          mainSuccessTrace.indexOf MainAction.deregisterBots ∧
       mainSuccessTrace.indexOf MainAction.apiStop <
          mainSuccessTrace.indexOf MainAction.deregisterBots) := by
  decide

/-- C5 (amended): during graceful shutdown bot deregistration happens after
the Filter and the Notifier workers (self-state, event fetcher, notifications
fetcher) have been stopped, but before the Checker and the API are stopped. -/
theorem deregisterBots_order_amended :
    MainAction.deregisterBots ∈ mainSuccessTrace ∧
    mainSuccessTrace.indexOf MainAction.waitSignal <
        mainSuccessTrace.indexOf MainAction.deregisterBots ∧
    mainSuccessTrace.indexOf MainAction.filterStop <
        mainSuccessTrace.indexOf MainAction.deregisterBots ∧
    mainSuccessTrace.indexOf MainAction.selfStateStop <
        mainSuccessTrace.indexOf MainAction.deregisterBots ∧
    mainSuccessTrace.indexOf MainAction.fetchEventsStop <
        mainSuccessTrace.indexOf MainAction.deregisterBots ∧
    mainSuccessTrace.indexOf MainAction.fetchNotificationsStop <
        mainSuccessTrace.indexOf MainAction.deregisterBots ∧
    mainSuccessTrace.indexOf MainAction.deregisterBots <
        mainSuccessTrace.indexOf MainAction.checkerStop ∧
    mainSuccessTrace.indexOf MainAction.deregisterBots <
        mainSuccessTrace.indexOf MainAction.apiStop := by
  decide

/-- C6: when neither `--version` nor `--default-config` is given and reading
the configuration file fails, `main` writes the diagnostic to stderr and exits
with code 1, and its trace starts no component (no API, Filter, Notifier or
Checker start). -/
theorem config_read_failure_exits_one
    (f : Flags) (env : MainEnv) (e : String)
    (hv : f.version = false) (hd : f.defaultConfig = false)
    (hr : env.readConfigError = some e) :
    runMain f env =
      [MainAction.readConfig (configPath f),
       MainAction.stderrWrite ("Can't read settings: " ++ e ++ "\n"),
       MainAction.exitProcess 1] ∧
    ∀ a ∈ runMain f env, isComponentStart a = false := by
  have ht : runMain f env =
      [MainAction.readConfig (configPath f),
       MainAction.stderrWrite ("Can't read settings: " ++ e ++ "\n"),
       MainAction.exitProcess 1] := by
    simp [runMain, hv, hd, hr]
  refine ⟨ht, ?_⟩
  rw [ht]
  simp [isComponentStart]

/-- C6 witness: the theorem at the empty command line and a run whose config
read fails with "boom". -/
theorem config_read_failure_exits_one_witness :
    runMain ⟨false, false, none⟩
        ⟨some "boom", none, none, none, none, none, none, none, none, none,
         none, none⟩ =
      [MainAction.readConfig
         (configPath (⟨false, false, none⟩ : Flags)),
       MainAction.stderrWrite ("Can't read settings: " ++ "boom" ++ "\n"),
       MainAction.exitProcess 1] ∧
    ∀ a ∈ runMain ⟨false, false, none⟩
        ⟨some "boom", none, none, none, none, none, none, none, none, none,
         none, none⟩, isComponentStart a = false :=
  config_read_failure_exits_one ⟨false, false, none⟩
    ⟨some "boom", none, none, none, none, none, none, none, none, none,
     none, none⟩ "boom" rfl rfl rfl

/-- C8: when `--config` is not given, the configuration file path `main` uses
is the flag's default `"moira.yml"`, i.e. the file `./moira.yml` relative to
the working directory. -/
theorem default_config_path (f : Flags) (h : f.config = none) :
    configPath f = "moira.yml" ∧ "./" ++ configPath f = "./moira.yml" := by
  simp [configPath, h]

/-- C8 witness: the theorem at the empty command line. -/
theorem default_config_path_witness :
    configPath (⟨false, false, none⟩ : Flags) = "moira.yml" ∧
      "./" ++ configPath (⟨false, false, none⟩ : Flags) = "./moira.yml" :=
  default_config_path ⟨false, false, none⟩ rfl

/-- C9: with `--default-config` given (and `--version` not), `main` prints the
default configuration and exits with code 0, and no configuration file is
read. -/
theorem default_config_flag_prints_and_exits_zero
    (f : Flags) (env : MainEnv)
    (hv : f.version = false) (hd : f.defaultConfig = true) :
    runMain f env = [MainAction.printDefaultConfig, MainAction.exitProcess 0] ∧
    ∀ p, MainAction.readConfig p ∉ runMain f env := by
  have ht : runMain f env =
      [MainAction.printDefaultConfig, MainAction.exitProcess 0] := by
    simp [runMain, hv, hd]
  refine ⟨ht, fun p => ?_⟩
  rw [ht]
  simp

/-- C9 witness: the theorem at the command line holding only
`--default-config`, with every external call succeeding. -/
theorem default_config_flag_prints_and_exits_zero_witness :
    runMain ⟨false, true, none⟩ allSucceedEnv =
      [MainAction.printDefaultConfig, MainAction.exitProcess 0] ∧
    ∀ p, MainAction.readConfig p ∉ runMain ⟨false, true, none⟩ allSucceedEnv :=
  default_config_flag_prints_and_exits_zero ⟨false, true, none⟩
    allSucceedEnv rfl rfl

/-- C7: with the 1-minute time-to-live the Checker's cache is created with in
`main`, an entry inserted at time `t` is expired exactly for the accesses at or
after `t + 60` seconds. -/
theorem trigger_cache_ttl_expiry {α : Type} (item : CacheItem α) (now : Nat) :
    cacheItemExpired checkerCacheTTL item now = true ↔
      item.insertedAt + 60 ≤ now := by
  simp [cacheItemExpired, checkerCacheTTL]
